import Mathlib

/-
  Formal model of the Maya procedural-content-generation scripts
  (starships, Minecraft-style characters, extruded 3D text).

  Each namespace below embeds one Python script of the repository:
    StarwarsFleet        src/scripts/starwars_fleet.py
    StarshipV2           src/scripts/starship_v2.py
    MinecraftCharacters  src/scripts/minecraft_characters.py
    Fancy3dText          src/scripts/fancy_3d_text.py
    Fancy3dTextV2        src/scripts/fancy_3d_text_v2.py

  Host-application effects (maya.cmds calls) are embedded explicitly:
  node creation becomes list construction, scene state becomes an explicit
  parameter, and host randomness or host exceptions become oracle
  parameters.  Float literals of the scripts are embedded as rationals;
  the trigonometric formation formulas keep their radius and angle
  (in degrees) symbolically in a Placement value, interpreted into real
  coordinates by Placement.toPoint.
-/

/-- An RGB color triple; the scripts write these as float literals. -/
structure RGB where
  r : ℚ
  g : ℚ
  b : ℚ
deriving DecidableEq

/-- Association-list lookup keyed on the first component; embeds a Python
dict consulted by key (none embeds a missed key). -/
def lookupTable {κ α : Type} [BEq κ] (table : List (κ × α)) (key : κ) : Option α :=
  (table.find? (fun p => p.1 == key)).map Prod.snd

/-- A placement computed by a formation formula: either exact cartesian
coordinates, or the point at the given angle (degrees) on a circle of the
given radius in the xz plane, which the scripts compute as
radius * cos/sin of the angle converted to radians. -/
inductive Placement where
  | cart (x y z : ℚ)
  | ring (radius : ℚ) (angleDeg : ℚ)
deriving DecidableEq

/-- Real coordinates denoted by a placement. -/
noncomputable def Placement.toPoint : Placement → ℝ × ℝ × ℝ
  | .cart x y z => ((x : ℝ), (y : ℝ), (z : ℝ))
  | .ring r θ =>
      ((r : ℝ) * Real.cos ((θ : ℝ) * Real.pi / 180), 0,
       (r : ℝ) * Real.sin ((θ : ℝ) * Real.pi / 180))

/-- The circle-formation rule as the specification states it: item i of
count is placed at angle 360 * i / count degrees on a circle of the given
radius. -/
noncomputable def spec_circle_point (radius : ℝ) (count i : ℕ) : ℝ × ℝ × ℝ :=
  (radius * Real.cos (360 * (i : ℝ) / (count : ℝ) * Real.pi / 180), 0,
   radius * Real.sin (360 * (i : ℝ) / (count : ℝ) * Real.pi / 180))

namespace StarwarsFleet

/-- Color roles of one entry of SHIP_TYPES. -/
structure ShipColors where
  hull : RGB
  accent : RGB
  engine : RGB
  cockpit : RGB
deriving DecidableEq

/-- One entry of the SHIP_TYPES table. -/
structure ShipConfig where
  name : String
  description : String
  colors : ShipColors
deriving DecidableEq

def xwing : ShipConfig :=
  { name := "X-Wing Fighter", description := "Rebel Alliance starfighter with S-foils",
    colors := { hull := ⟨0.85, 0.85, 0.8⟩, accent := ⟨1.0, 0.3, 0.0⟩,
                engine := ⟨1.0, 0.4, 0.2⟩, cockpit := ⟨0.1, 0.15, 0.2⟩ } }

def tie : ShipConfig :=
  { name := "TIE Fighter", description := "Imperial fighter with twin ion engines",
    colors := { hull := ⟨0.2, 0.2, 0.22⟩, accent := ⟨0.1, 0.1, 0.1⟩,
                engine := ⟨0.0, 0.5, 1.0⟩, cockpit := ⟨0.05, 0.05, 0.08⟩ } }

def ywing : ShipConfig :=
  { name := "Y-Wing Bomber", description := "Rebel bomber with exposed machinery",
    colors := { hull := ⟨0.6, 0.55, 0.4⟩, accent := ⟨0.4, 0.35, 0.25⟩,
                engine := ⟨0.0, 0.7, 1.0⟩, cockpit := ⟨0.1, 0.1, 0.15⟩ } }

def awing : ShipConfig :=
  { name := "A-Wing Interceptor", description := "Fast rebel interceptor",
    colors := { hull := ⟨0.8, 0.15, 0.1⟩, accent := ⟨0.9, 0.9, 0.85⟩,
                engine := ⟨0.0, 0.8, 1.0⟩, cockpit := ⟨0.1, 0.1, 0.12⟩ } }

def falcon : ShipConfig :=
  { name := "Light Freighter", description := "Modified YT-1300 freighter",
    colors := { hull := ⟨0.6, 0.58, 0.55⟩, accent := ⟨0.4, 0.38, 0.35⟩,
                engine := ⟨0.0, 0.6, 1.0⟩, cockpit := ⟨0.15, 0.12, 0.1⟩ } }

def shuttle : ShipConfig :=
  { name := "Imperial Shuttle", description := "Lambda-class shuttle with folding wings",
    colors := { hull := ⟨0.85, 0.85, 0.88⟩, accent := ⟨0.2, 0.2, 0.22⟩,
                engine := ⟨1.0, 0.3, 0.1⟩, cockpit := ⟨0.1, 0.1, 0.12⟩ } }

def interceptor : ShipConfig :=
  { name := "TIE Interceptor", description := "Advanced Imperial fighter with angled wings",
    colors := { hull := ⟨0.15, 0.15, 0.18⟩, accent := ⟨0.1, 0.1, 0.1⟩,
                engine := ⟨0.0, 0.6, 1.0⟩, cockpit := ⟨0.05, 0.05, 0.08⟩ } }

def slave1 : ShipConfig :=
  { name := "Firespray Gunship", description := "Bounty hunter patrol craft",
    colors := { hull := ⟨0.3, 0.4, 0.35⟩, accent := ⟨0.6, 0.1, 0.1⟩,
                engine := ⟨1.0, 0.5, 0.0⟩, cockpit := ⟨0.1, 0.15, 0.12⟩ } }

/-- The SHIP_TYPES configuration table of starwars_fleet.py. -/
def SHIP_TYPES : List (String × ShipConfig) :=
  [("xwing", xwing), ("tie", tie), ("ywing", ywing), ("awing", awing),
   ("falcon", falcon), ("shuttle", shuttle), ("interceptor", interceptor),
   ("slave1", slave1)]

/-- The type-key normalisation and table access performed by create_ship:
a ship_type that is not a key of SHIP_TYPES is replaced by "xwing" before
indexing the table (dict indexing is embedded as an Option, where none
would stand for a KeyError). -/
def create_ship_config (ship_type : String) : Option ShipConfig :=
  let t := if (lookupTable SHIP_TYPES ship_type).isSome then ship_type else "xwing"
  lookupTable SHIP_TYPES t

/-- Position computed for ship i inside the create_fleet loop; rand
supplies the random.uniform draws of the fallback (random) formation. -/
def fleet_position (formation : String) (count : ℕ) (rand : ℕ → ℚ × ℚ × ℚ) (i : ℕ) : Placement :=
  if formation = "attack" then
    if i = 0 then .cart 0 0 0
    else .cart (-((i / 2 : ℕ) : ℚ) * 5) 0
               ((if i % 2 = 0 then (1 : ℚ) else -1) * ((i / 2 : ℕ) : ℚ) * 4)
  else if formation = "patrol" then .cart ((i : ℚ) * 6) 0 0
  else if formation = "escort" then
    if i = 0 then .cart 0 0 0
    else .ring 8 (if 1 < count then (((i - 1 : ℕ) : ℚ) / ((count - 1 : ℕ) : ℚ)) * 360 else 0)
  else .cart (rand i).1 (rand i).2.1 (rand i).2.2

/-- The per-ship positions produced by the create_fleet loop. -/
def create_fleet_positions (count : ℕ) (formation : String) (rand : ℕ → ℚ × ℚ × ℚ) : List Placement :=
  (List.range count).map (fleet_position formation count rand)

end StarwarsFleet

namespace StarshipV2

/-- One entry of the SHIP_THEMES table of starship_v2.py. -/
structure ThemeColors where
  hull_primary : RGB
  hull_secondary : RGB
  accent : RGB
  engine_glow : RGB
  cockpit : RGB
  weapons : RGB
  lights : RGB
deriving DecidableEq

def federation : ThemeColors :=
  { hull_primary := ⟨0.85, 0.85, 0.9⟩, hull_secondary := ⟨0.6, 0.6, 0.65⟩,
    accent := ⟨0.2, 0.4, 0.8⟩, engine_glow := ⟨0.0, 0.7, 1.0⟩,
    cockpit := ⟨0.1, 0.15, 0.2⟩, weapons := ⟨1.0, 0.3, 0.1⟩, lights := ⟨1.0, 1.0, 0.8⟩ }

def empire : ThemeColors :=
  { hull_primary := ⟨0.2, 0.2, 0.22⟩, hull_secondary := ⟨0.1, 0.1, 0.12⟩,
    accent := ⟨0.8, 0.0, 0.0⟩, engine_glow := ⟨0.0, 0.5, 1.0⟩,
    cockpit := ⟨0.05, 0.05, 0.08⟩, weapons := ⟨0.0, 1.0, 0.3⟩, lights := ⟨1.0, 0.0, 0.0⟩ }

def bounty_hunter : ThemeColors :=
  { hull_primary := ⟨0.4, 0.35, 0.25⟩, hull_secondary := ⟨0.3, 0.25, 0.15⟩,
    accent := ⟨0.6, 0.5, 0.1⟩, engine_glow := ⟨1.0, 0.5, 0.0⟩,
    cockpit := ⟨0.15, 0.12, 0.08⟩, weapons := ⟨1.0, 0.2, 0.0⟩, lights := ⟨1.0, 0.8, 0.4⟩ }

def alien : ThemeColors :=
  { hull_primary := ⟨0.1, 0.3, 0.2⟩, hull_secondary := ⟨0.15, 0.4, 0.25⟩,
    accent := ⟨0.5, 0.0, 0.7⟩, engine_glow := ⟨0.0, 1.0, 0.5⟩,
    cockpit := ⟨0.2, 0.1, 0.3⟩, weapons := ⟨0.8, 0.0, 1.0⟩, lights := ⟨0.0, 1.0, 0.8⟩ }

def stealth : ThemeColors :=
  { hull_primary := ⟨0.05, 0.05, 0.08⟩, hull_secondary := ⟨0.08, 0.08, 0.1⟩,
    accent := ⟨0.1, 0.1, 0.15⟩, engine_glow := ⟨0.3, 0.0, 0.5⟩,
    cockpit := ⟨0.02, 0.02, 0.05⟩, weapons := ⟨0.5, 0.0, 0.0⟩, lights := ⟨0.2, 0.0, 0.3⟩ }

def racer : ThemeColors :=
  { hull_primary := ⟨1.0, 0.2, 0.0⟩, hull_secondary := ⟨1.0, 1.0, 1.0⟩,
    accent := ⟨0.0, 0.0, 0.0⟩, engine_glow := ⟨0.0, 0.8, 1.0⟩,
    cockpit := ⟨0.1, 0.1, 0.1⟩, weapons := ⟨1.0, 1.0, 0.0⟩, lights := ⟨1.0, 1.0, 1.0⟩ }

/-- The SHIP_THEMES configuration table of starship_v2.py. -/
def SHIP_THEMES : List (String × ThemeColors) :=
  [("federation", federation), ("empire", empire), ("bounty_hunter", bounty_hunter),
   ("alien", alien), ("stealth", stealth), ("racer", racer)]

/-- Theme validation of create_starship: an unknown theme is replaced by
"federation". -/
def create_starship_theme (theme : String) : String :=
  if (lookupTable SHIP_THEMES theme).isSome then theme else "federation"

/-- Class validation of create_starship: a class outside the literal list
is replaced by "interceptor". -/
def create_starship_class (ship_class : String) : String :=
  if ship_class ∈ ["interceptor", "heavy_fighter", "racer"] then ship_class
  else "interceptor"

/-- The theme entry create_starship builds with after validation. -/
def create_starship_config (theme : String) : Option ThemeColors :=
  lookupTable SHIP_THEMES (create_starship_theme theme)

/-- Position the create_squadron loop moves ship i to; count is the
already clamped ship count (the diamond angle divides by it).  A
formation string matching no branch leaves the ship where it was
created, at the origin. -/
def squadron_position (formation : String) (count i : ℕ) : Placement :=
  if formation = "v" then
    if i = 0 then .cart 0 0 0
    else .cart ((if i % 2 = 0 then (1 : ℚ) else -1) * ((i / 2 : ℕ) : ℚ) * 3) 0
               (-((i / 2 : ℕ) : ℚ) * 4)
  else if formation = "line" then .cart ((i : ℚ) * 4) 0 0
  else if formation = "diamond" then .ring 5 (((i : ℚ) / (count : ℚ)) * 360)
  else if formation = "echelon" then .cart ((i : ℚ) * 3) 0 (-((i : ℚ) * 2))
  else .cart 0 0 0

/-- The per-ship positions produced by the create_squadron loop, whose
requested count is first clamped to at most 12 ships. -/
def create_squadron_positions (count : ℕ) (formation : String) : List Placement :=
  (List.range (min count 12)).map (squadron_position formation (min count 12))

end StarshipV2

namespace MinecraftCharacters

/-- One entry of the CHARACTERS table of minecraft_characters.py; the
special marker is the optional special key of the Python dict. -/
structure CharacterConfig where
  name : String
  description : String
  skin : RGB
  shirt : RGB
  pants : RGB
  hair : RGB
  eyes : RGB
  shoes : RGB
  special : Option String := none
deriving DecidableEq

def steve : CharacterConfig :=
  { name := "Steve", description := "The classic Minecraft player",
    skin := ⟨0.72, 0.53, 0.4⟩, shirt := ⟨0.0, 0.65, 0.65⟩, pants := ⟨0.2, 0.2, 0.6⟩,
    hair := ⟨0.25, 0.15, 0.1⟩, eyes := ⟨0.3, 0.2, 0.5⟩, shoes := ⟨0.3, 0.3, 0.3⟩ }

def alex : CharacterConfig :=
  { name := "Alex", description := "The alternate player character",
    skin := ⟨0.78, 0.58, 0.45⟩, shirt := ⟨0.3, 0.55, 0.2⟩, pants := ⟨0.4, 0.3, 0.2⟩,
    hair := ⟨0.85, 0.45, 0.15⟩, eyes := ⟨0.2, 0.5, 0.2⟩, shoes := ⟨0.35, 0.25, 0.15⟩ }

def zombie : CharacterConfig :=
  { name := "Zombie", description := "Undead mob that spawns at night",
    skin := ⟨0.3, 0.5, 0.35⟩, shirt := ⟨0.0, 0.45, 0.45⟩, pants := ⟨0.15, 0.15, 0.4⟩,
    hair := ⟨0.2, 0.25, 0.2⟩, eyes := ⟨0.1, 0.1, 0.1⟩, shoes := ⟨0.25, 0.25, 0.25⟩ }

def creeper : CharacterConfig :=
  { name := "Creeper", description := "Explosive green mob - SSSSSS!",
    skin := ⟨0.3, 0.65, 0.3⟩, shirt := ⟨0.25, 0.55, 0.25⟩, pants := ⟨0.2, 0.45, 0.2⟩,
    hair := ⟨0.3, 0.65, 0.3⟩, eyes := ⟨0.0, 0.0, 0.0⟩, shoes := ⟨0.2, 0.45, 0.2⟩,
    special := some "creeper_face" }

def skeleton : CharacterConfig :=
  { name := "Skeleton", description := "Bow-wielding undead archer",
    skin := ⟨0.85, 0.85, 0.8⟩, shirt := ⟨0.8, 0.8, 0.75⟩, pants := ⟨0.75, 0.75, 0.7⟩,
    hair := ⟨0.85, 0.85, 0.8⟩, eyes := ⟨0.1, 0.1, 0.1⟩, shoes := ⟨0.7, 0.7, 0.65⟩ }

def enderman : CharacterConfig :=
  { name := "Enderman", description := "Tall mysterious mob from The End",
    skin := ⟨0.1, 0.1, 0.12⟩, shirt := ⟨0.08, 0.08, 0.1⟩, pants := ⟨0.06, 0.06, 0.08⟩,
    hair := ⟨0.1, 0.1, 0.12⟩, eyes := ⟨0.8, 0.2, 0.8⟩, shoes := ⟨0.05, 0.05, 0.06⟩,
    special := some "tall" }

def villager : CharacterConfig :=
  { name := "Villager", description := "Friendly NPC trader",
    skin := ⟨0.72, 0.55, 0.42⟩, shirt := ⟨0.5, 0.35, 0.2⟩, pants := ⟨0.45, 0.3, 0.15⟩,
    hair := ⟨0.4, 0.25, 0.15⟩, eyes := ⟨0.2, 0.4, 0.2⟩, shoes := ⟨0.3, 0.2, 0.1⟩,
    special := some "big_nose" }

def pigman : CharacterConfig :=
  { name := "Zombie Piglin", description := "Undead Nether mob",
    skin := ⟨0.75, 0.55, 0.5⟩, shirt := ⟨0.5, 0.35, 0.25⟩, pants := ⟨0.4, 0.3, 0.2⟩,
    hair := ⟨0.3, 0.2, 0.15⟩, eyes := ⟨0.8, 0.1, 0.1⟩, shoes := ⟨0.35, 0.25, 0.15⟩,
    special := some "pig_snout" }

def witch : CharacterConfig :=
  { name := "Witch", description := "Potion-throwing hostile mob",
    skin := ⟨0.6, 0.55, 0.5⟩, shirt := ⟨0.25, 0.1, 0.3⟩, pants := ⟨0.2, 0.08, 0.25⟩,
    hair := ⟨0.3, 0.3, 0.3⟩, eyes := ⟨0.5, 0.1, 0.5⟩, shoes := ⟨0.15, 0.05, 0.2⟩,
    special := some "witch_hat" }

def iron_golem : CharacterConfig :=
  { name := "Iron Golem", description := "Powerful village protector",
    skin := ⟨0.7, 0.7, 0.68⟩, shirt := ⟨0.65, 0.65, 0.62⟩, pants := ⟨0.6, 0.6, 0.58⟩,
    hair := ⟨0.7, 0.7, 0.68⟩, eyes := ⟨0.4, 0.15, 0.15⟩, shoes := ⟨0.55, 0.55, 0.52⟩,
    special := some "large" }

/-- The CHARACTERS configuration table of minecraft_characters.py. -/
def CHARACTERS : List (String × CharacterConfig) :=
  [("steve", steve), ("alex", alex), ("zombie", zombie), ("creeper", creeper),
   ("skeleton", skeleton), ("enderman", enderman), ("villager", villager),
   ("pigman", pigman), ("witch", witch), ("iron_golem", iron_golem)]

/-- The type-key normalisation and table access performed by
create_character: a char_type that is not a key of CHARACTERS is replaced
by "steve" before indexing the table. -/
def create_character_config (char_type : String) : Option CharacterConfig :=
  let t := if (lookupTable CHARACTERS char_type).isSome then char_type else "steve"
  lookupTable CHARACTERS t

/-- Arm pose selected by create_character from the requested pose. -/
def arm_pose (pose : String) : String :=
  if pose ∈ ["wave", "zombie"] then pose else "down"

/-- Leg pose selected by create_character from the requested pose. -/
def leg_pose (pose : String) : String :=
  if pose = "walking" then "walking" else "standing"

/-- Position computed for mob i inside the create_mob_horde loop; rand
supplies the random.uniform draws of the swarm formation (the mob is
created at height y = 0 in every branch). -/
def horde_position (formation : String) (count : ℕ) (rand : ℕ → ℚ × ℚ) (i : ℕ) : Placement :=
  if formation = "line" then .cart ((i : ℚ) * 2) 0 0
  else if formation = "ambush" then .ring 8 (((i : ℚ) / (count : ℚ)) * 180 - 90)
  else .cart (rand i).1 0 (rand i).2

/-- The per-mob positions produced by the create_mob_horde loop. -/
def create_mob_horde_positions (count : ℕ) (formation : String) (rand : ℕ → ℚ × ℚ) : List Placement :=
  (List.range count).map (horde_position formation count rand)

/-- Maya scene state relevant to create_material: the names of the nodes
that exist. -/
abbrev Scene := List String

/-- create_material of minecraft_characters.py, returning the
shading-group name together with the updated scene.  When a shader named
name_mat already exists the function returns name_SG at once and creates
nothing; otherwise it creates the lambert shader and the shading group
(the setAttr and connectAttr calls mutate attributes of those nodes and
create no nodes, so the color and emission arguments do not affect the
scene node set). -/
def create_material (scene : Scene) (name : String) (color : RGB) (emission : ℚ) : String × Scene :=
  if (name ++ "_mat") ∈ scene then (name ++ "_SG", scene)
  else (name ++ "_SG", scene ++ [name ++ "_mat", name ++ "_SG"])

end MinecraftCharacters

namespace Fancy3dText

/-- The rainbow palette of fancy_3d_text.py (7 entries). -/
def rainbow : List RGB :=
  [⟨1.0, 0.2, 0.2⟩, ⟨1.0, 0.5, 0.0⟩, ⟨1.0, 1.0, 0.0⟩, ⟨0.0, 1.0, 0.3⟩,
   ⟨0.0, 0.8, 1.0⟩, ⟨0.3, 0.3, 1.0⟩, ⟨0.8, 0.2, 1.0⟩]

def fire : List RGB :=
  [⟨1.0, 0.9, 0.0⟩, ⟨1.0, 0.6, 0.0⟩, ⟨1.0, 0.2, 0.0⟩, ⟨0.8, 0.0, 0.0⟩]

def ice : List RGB :=
  [⟨0.9, 1.0, 1.0⟩, ⟨0.6, 0.9, 1.0⟩, ⟨0.2, 0.6, 1.0⟩, ⟨0.1, 0.3, 0.8⟩]

def neon : List RGB :=
  [⟨1.0, 0.0, 0.5⟩, ⟨0.0, 1.0, 1.0⟩, ⟨0.5, 0.0, 1.0⟩, ⟨0.0, 1.0, 0.5⟩]

def gold : List RGB :=
  [⟨1.0, 0.95, 0.6⟩, ⟨1.0, 0.84, 0.0⟩, ⟨0.85, 0.65, 0.13⟩, ⟨0.72, 0.53, 0.04⟩]

def sunset : List RGB :=
  [⟨1.0, 0.4, 0.4⟩, ⟨1.0, 0.6, 0.2⟩, ⟨1.0, 0.8, 0.4⟩, ⟨0.8, 0.4, 0.6⟩, ⟨0.5, 0.3, 0.7⟩]

/-- The COLOR_PRESETS table of fancy_3d_text.py. -/
def COLOR_PRESETS : List (String × List RGB) :=
  [("rainbow", rainbow), ("fire", fire), ("ice", ice), ("neon", neon),
   ("gold", gold), ("sunset", sunset)]

/-- The palette selection of create_3d_text: the dict get call falls back
to the rainbow entry of COLOR_PRESETS. -/
def get_colors (color_preset : String) : List RGB :=
  (lookupTable COLOR_PRESETS color_preset).getD rainbow

/-- Material color chosen inside create_3d_text for the character at text
index i: the palette index cycles by i modulo the palette length when
per-letter coloring is on, and the first palette entry is used
otherwise.  List indexing is embedded as an Option, where none would
stand for an IndexError. -/
def letter_color (color_preset : String) (plc : Bool) (i : ℕ) : Option RGB :=
  let colors := get_colors color_preset
  let color_index := i % colors.length
  if plc then colors[color_index]? else colors[0]?

/-- Outcome of the host calls for one character of create_3d_text:
either cmds.textCurves raised, or it produced a letter whose curves then
went through the per-curve extrusion loop, extruded of them succeeding
and failed of them raising (each caught and skipped). -/
inductive LetterResult where
  | raised
  | curves (extruded failed : ℕ)

/-- Whether letter processing reaches the mesh-collection branch: the
letter must have produced at least one curve and at least one curve must
have extruded. -/
def letter_succeeds : LetterResult → Bool
  | .raised => false
  | .curves extruded _ => 0 < extruded

/-- The per-letter loop of create_3d_text over the enumerated text,
mirroring its control flow: a space advances the cursor and continues; a
raised textCurves call is caught with a warning and continues; a letter
with no curves is deleted and continues; a letter with no successfully
extruded curve adds no mesh; otherwise the letter joins the result. -/
def letters_loop (host : ℕ → LetterResult) : List (ℕ × Char) → List (ℕ × Char)
  | [] => []
  | (i, c) :: rest =>
    if c = ' ' then letters_loop host rest
    else
      match host i with
      | .raised => letters_loop host rest
      | .curves 0 _ => letters_loop host rest
      | .curves (_ + 1) _ => (i, c) :: letters_loop host rest

/-- The letters of the text that create_3d_text turns into meshes, as
(index, character) pairs, given the host outcome of each index. -/
def create_3d_text_letters (text : List Char) (host : ℕ → LetterResult) : List (ℕ × Char) :=
  letters_loop host text.enum

end Fancy3dText

namespace Fancy3dTextV2

/-- The letter_patterns table of create_primitive_text: the blocky cube
pattern of each supported character. -/
def letter_patterns : List (Char × List (ℚ × ℚ)) :=
  [('A', [(0,0), (0,1), (0,2), (1,2), (2,2), (2,1), (2,0), (1,1)]),
   ('B', [(0,0), (0,1), (0,2), (1,2), (2,1.5), (1,1), (2,0.5), (1,0)]),
   ('C', [(0,0), (0,1), (0,2), (1,2), (2,2), (1,0), (2,0)]),
   ('D', [(0,0), (0,1), (0,2), (1,2), (2,1), (1,0)]),
   ('E', [(0,0), (0,1), (0,2), (1,2), (2,2), (1,1), (1,0), (2,0)]),
   ('F', [(0,0), (0,1), (0,2), (1,2), (2,2), (1,1)]),
   ('G', [(0,0), (0,1), (0,2), (1,2), (2,2), (2,0), (1,0), (2,1), (1.5,1)]),
   ('H', [(0,0), (0,1), (0,2), (1,1), (2,0), (2,1), (2,2)]),
   ('I', [(0,0), (1,0), (2,0), (1,1), (0,2), (1,2), (2,2)]),
   ('J', [(0,0), (1,0), (2,0), (2,1), (2,2), (1,2), (0,2)]),
   ('K', [(0,0), (0,1), (0,2), (1,1), (2,0), (2,2)]),
   ('L', [(0,0), (0,1), (0,2), (1,0), (2,0)]),
   ('M', [(0,0), (0,1), (0,2), (1,1.5), (2,2), (2,1), (2,0)]),
   ('N', [(0,0), (0,1), (0,2), (1,1.5), (2,2), (2,1), (2,0)]),
   ('O', [(0,0), (0,1), (0,2), (1,2), (2,2), (2,1), (2,0), (1,0)]),
   ('P', [(0,0), (0,1), (0,2), (1,2), (2,2), (2,1.5), (1,1)]),
   ('Q', [(0,0), (0,1), (0,2), (1,2), (2,2), (2,1), (2,0), (1,0), (1.5,-0.5)]),
   ('R', [(0,0), (0,1), (0,2), (1,2), (2,2), (2,1.5), (1,1), (2,0)]),
   ('S', [(0,0), (1,0), (2,0), (2,1), (1,1), (0,1), (0,2), (1,2), (2,2)]),
   ('T', [(0,2), (1,2), (2,2), (1,1), (1,0)]),
   ('U', [(0,2), (0,1), (0,0), (1,0), (2,0), (2,1), (2,2)]),
   ('V', [(0,2), (0,1), (1,0), (2,1), (2,2)]),
   ('W', [(0,2), (0,1), (0,0), (1,0.5), (2,0), (2,1), (2,2)]),
   ('X', [(0,0), (0,2), (1,1), (2,0), (2,2)]),
   ('Y', [(0,2), (1,1), (2,2), (1,0)]),
   ('Z', [(0,2), (1,2), (2,2), (2,1), (1,1), (0,1), (0,0), (1,0), (2,0)]),
   (' ', []),
   ('!', [(1,2), (1,1), (1,0)]),
   ('.', [(1,0)])]

/-- The pattern create_primitive_text uses for a character: the table
entry when present, otherwise the entry of the question-mark character
(itself absent from the table), otherwise the single center cube. -/
def pattern_for (c : Char) : List (ℚ × ℚ) :=
  (lookupTable letter_patterns c).getD ((lookupTable letter_patterns '?').getD [(1, 1)])

/-- One blocky letter group produced by create_primitive_text: the
(uppercased) character and the centers its cubes are moved to. -/
structure PrimLetter where
  char : Char
  cubes : List (ℚ × ℚ × ℚ)
deriving DecidableEq

/-- The character loop of create_primitive_text, carrying the x cursor: a
space advances the cursor by 2 * scale and continues; any other character
looks up its pattern, emits one letter group when the pattern is
nonempty, and advances the cursor by 3 * scale. -/
def primitive_text_loop (scale : ℚ) : List Char → ℚ → List PrimLetter
  | [], _ => []
  | c :: rest, x_pos =>
    if c = ' ' then primitive_text_loop scale rest (x_pos + 2 * scale)
    else
      let pattern := pattern_for c
      (if pattern.isEmpty then []
       else [{ char := c,
               cubes := pattern.map (fun q => ((x_pos + q.1 * 0.5) * scale, q.2 * 0.5 * scale, 0)) }])
      ++ primitive_text_loop scale rest (x_pos + 3 * scale)

/-- create_primitive_text of fancy_3d_text_v2.py: the loop runs over the
uppercased text with the cursor starting at 0. -/
def create_primitive_text (text : List Char) (scale : ℚ) : List PrimLetter :=
  primitive_text_loop scale (text.map Char.toUpper) 0

/-- A mesh collected by create_3d_text of fancy_3d_text_v2.py: a
transform found for the Type-tool node, or a blocky letter group of the
primitive fallback. -/
inductive TextMesh where
  | typeTool (transform : String)
  | primitive (letter : PrimLetter)
deriving DecidableEq

/-- The name of the main group created by create_3d_text. -/
def main_group_name (text : List Char) : String :=
  "fancy_text_" ++ String.mk (text.map (fun c => if c = ' ' then '_' else c)) ++ "_grp"

/-- Mesh collection and grouping of fancy_3d_text_v2.create_3d_text: the
Type-tool path outcome is supplied by the host as a list of transforms
(empty when that path produced no meshes); when it is empty the primitive
fallback is invoked; when even that yields nothing the function returns
None and no meshes, and otherwise the main group holding the meshes. -/
def create_3d_text (type_tool_meshes : List String) (text : List Char) (scale : ℚ) :
    Option String × List TextMesh :=
  let from_type := type_tool_meshes.map TextMesh.typeTool
  let all_meshes :=
    if from_type.isEmpty then (create_primitive_text text scale).map TextMesh.primitive
    else from_type
  if all_meshes.isEmpty then (none, [])
  else (some (main_group_name text), all_meshes)

/-- A keyframe set by add_text_animation. -/
structure Keyframe where
  obj : String
  attr : String
  value : ℚ
  time : ℚ
deriving DecidableEq

/-- The keyframes add_text_animation sets on the mesh at index i of the
mesh list for the given animation type; a type matching no branch of the
if-elif chain sets none. -/
def mesh_keyframes (animation_type mesh : String) (i : ℕ) : List Keyframe :=
  let offset : ℚ := (i : ℚ) * 5
  if animation_type = "wave" then
    [⟨mesh, "translateY", 0, 1 + offset⟩, ⟨mesh, "translateY", 0.5, 15 + offset⟩,
     ⟨mesh, "translateY", 0, 30 + offset⟩]
  else if animation_type = "bounce" then
    [⟨mesh, "translateY", 0, 1 + offset⟩, ⟨mesh, "translateY", 1.0, 10 + offset⟩,
     ⟨mesh, "translateY", 0, 20 + offset⟩, ⟨mesh, "translateY", 0.5, 25 + offset⟩,
     ⟨mesh, "translateY", 0, 30 + offset⟩]
  else if animation_type = "spin" then
    [⟨mesh, "rotateY", 0, 1⟩, ⟨mesh, "rotateY", 360, 120⟩]
  else if animation_type = "pop" then
    [⟨mesh, "scaleX", 0, 1 + offset⟩, ⟨mesh, "scaleY", 0, 1 + offset⟩,
     ⟨mesh, "scaleZ", 0, 1 + offset⟩,
     ⟨mesh, "scaleX", 1.2, 10 + offset⟩, ⟨mesh, "scaleY", 1.2, 10 + offset⟩,
     ⟨mesh, "scaleZ", 1.2, 10 + offset⟩,
     ⟨mesh, "scaleX", 1, 15 + offset⟩, ⟨mesh, "scaleY", 1, 15 + offset⟩,
     ⟨mesh, "scaleZ", 1, 15 + offset⟩]
  else []

/-- add_text_animation of fancy_3d_text_v2.py: the keyframes set over all
meshes, in loop order. -/
def add_text_animation (meshes : List String) (animation_type : String) : List Keyframe :=
  (meshes.enum.map (fun p => mesh_keyframes animation_type p.2 p.1)).flatten

end Fancy3dTextV2

section Theorems

theorem lookupTable_eq_some_of_mem {κ α : Type} [BEq κ] [LawfulBEq κ]
    {t : List (κ × α)} (hnd : (t.map Prod.fst).Nodup) {k : κ} {v : α}
    (hm : (k, v) ∈ t) : lookupTable t k = some v := by
  induction t with
  | nil => simp at hm
  | cons p rest ih =>
    simp only [List.map_cons, List.nodup_cons] at hnd
    rcases List.mem_cons.mp hm with h | h
    · subst h
      simp [lookupTable, List.find?_cons_of_pos]
    · have hk : ¬ (p.1 == k) = true := by
        intro hb
        have : p.1 = k := eq_of_beq hb
        exact hnd.1 (this ▸ (List.mem_map.mpr ⟨(k, v), h, rfl⟩))
      have hk' : (p.1 == k) = false := by simpa using hk
      have hrest := ih hnd.2 h
      unfold lookupTable
      rw [List.find?_cons]
      simp only [hk', cond_false]
      exact hrest

theorem lookupTable_eq_none_of_not_mem {κ α : Type} [BEq κ] [LawfulBEq κ]
    {t : List (κ × α)} {k : κ} (h : k ∉ t.map Prod.fst) : lookupTable t k = none := by
  induction t with
  | nil => rfl
  | cons p rest ih =>
    simp only [List.map_cons, List.mem_cons, not_or] at h
    have hk : ¬ (p.1 == k) = true := by
      intro hb
      exact h.1 (eq_of_beq hb).symm
    have hk' : (p.1 == k) = false := by simpa using hk
    have hrest := ih h.2
    unfold lookupTable
    rw [List.find?_cons]
    simp only [hk', cond_false]
    exact hrest

/-- C1: for every builder that takes a type or preset key (create_ship,
create_character, create_starship for both its theme and its class, and
the text palette selection), a key present in the static table yields the
entry configured for that key, and a key absent from the table yields the
documented default entry (xwing, steve, federation and interceptor,
rainbow), in every case returning a value rather than raising. -/
theorem c1_type_key_lookup_defaults :
    (∀ k v, (k, v) ∈ StarwarsFleet.SHIP_TYPES →
      StarwarsFleet.create_ship_config k = some v)
    ∧ (∀ k, k ∉ StarwarsFleet.SHIP_TYPES.map Prod.fst →
      StarwarsFleet.create_ship_config k = some StarwarsFleet.xwing)
    ∧ (∀ k v, (k, v) ∈ MinecraftCharacters.CHARACTERS →
      MinecraftCharacters.create_character_config k = some v)
    ∧ (∀ k, k ∉ MinecraftCharacters.CHARACTERS.map Prod.fst →
      MinecraftCharacters.create_character_config k = some MinecraftCharacters.steve)
    ∧ (∀ k v, (k, v) ∈ StarshipV2.SHIP_THEMES →
      StarshipV2.create_starship_config k = some v)
    ∧ (∀ k, k ∉ StarshipV2.SHIP_THEMES.map Prod.fst →
      StarshipV2.create_starship_config k = some StarshipV2.federation)
    ∧ (∀ c, c ∈ ["interceptor", "heavy_fighter", "racer"] →
      StarshipV2.create_starship_class c = c)
    ∧ (∀ c, c ∉ ["interceptor", "heavy_fighter", "racer"] →
      StarshipV2.create_starship_class c = "interceptor")
    ∧ (∀ k v, (k, v) ∈ Fancy3dText.COLOR_PRESETS → Fancy3dText.get_colors k = v)
    ∧ (∀ k, k ∉ Fancy3dText.COLOR_PRESETS.map Prod.fst →
      Fancy3dText.get_colors k = Fancy3dText.rainbow) := by
  refine ⟨?_, ?_, ?_, ?_, ?_, ?_, ?_, ?_, ?_, ?_⟩
  · intro k v hm
    simp [StarwarsFleet.create_ship_config, lookupTable_eq_some_of_mem (by decide) hm]
  · intro k h
    unfold StarwarsFleet.create_ship_config
    rw [lookupTable_eq_none_of_not_mem h]
    rfl
  · intro k v hm
    simp [MinecraftCharacters.create_character_config, lookupTable_eq_some_of_mem (by decide) hm]
  · intro k h
    unfold MinecraftCharacters.create_character_config
    rw [lookupTable_eq_none_of_not_mem h]
    rfl
  · intro k v hm
    simp [StarshipV2.create_starship_config, StarshipV2.create_starship_theme,
          lookupTable_eq_some_of_mem (by decide) hm]
  · intro k h
    unfold StarshipV2.create_starship_config StarshipV2.create_starship_theme
    rw [lookupTable_eq_none_of_not_mem h]
    rfl
  · intro c hc
    unfold StarshipV2.create_starship_class
    rw [if_pos hc]
  · intro c hc
    unfold StarshipV2.create_starship_class
    rw [if_neg hc]
  · intro k v hm
    unfold Fancy3dText.get_colors
    rw [lookupTable_eq_some_of_mem (by decide) hm]
    rfl
  · intro k h
    unfold Fancy3dText.get_colors
    rw [lookupTable_eq_none_of_not_mem h]
    rfl

/-- Witness for C1 at concrete known and unknown keys of each table. -/
theorem c1_type_key_lookup_defaults_witness :
    StarwarsFleet.create_ship_config "falcon" = some StarwarsFleet.falcon
    ∧ StarwarsFleet.create_ship_config "enterprise" = some StarwarsFleet.xwing
    ∧ MinecraftCharacters.create_character_config "witch" = some MinecraftCharacters.witch
    ∧ MinecraftCharacters.create_character_config "herobrine" = some MinecraftCharacters.steve
    ∧ StarshipV2.create_starship_config "stealth" = some StarshipV2.stealth
    ∧ StarshipV2.create_starship_config "klingon" = some StarshipV2.federation
    ∧ StarshipV2.create_starship_class "racer" = "racer"
    ∧ StarshipV2.create_starship_class "dreadnought" = "interceptor"
    ∧ Fancy3dText.get_colors "gold" = Fancy3dText.gold
    ∧ Fancy3dText.get_colors "plasma" = Fancy3dText.rainbow := by
  obtain ⟨h1, h2, h3, h4, h5, h6, h7, h8, h9, h10⟩ := c1_type_key_lookup_defaults
  exact ⟨h1 _ _ (by simp [StarwarsFleet.SHIP_TYPES]), h2 _ (by decide),
         h3 _ _ (by simp [MinecraftCharacters.CHARACTERS]), h4 _ (by decide),
         h5 _ _ (by simp [StarshipV2.SHIP_THEMES]), h6 _ (by decide),
         h7 _ (by decide), h8 _ (by decide),
         h9 _ _ (by simp [Fancy3dText.COLOR_PRESETS]), h10 _ (by decide)⟩

/-- C9: create_squadron builds min(count, 12) ships for every requested
count, hence exactly 12 whenever more than 12 are requested, and none at
all for a requested count of 0 (there is no lower clamp). -/
theorem c9_squadron_count_clamp :
    (∀ count formation,
      (StarshipV2.create_squadron_positions count formation).length = min count 12)
    ∧ (∀ count formation, 12 < count →
      (StarshipV2.create_squadron_positions count formation).length = 12)
    ∧ (∀ formation, StarshipV2.create_squadron_positions 0 formation = []) := by
  refine ⟨?_, ?_, ?_⟩
  · intro count formation
    simp [StarshipV2.create_squadron_positions]
  · intro count formation h
    simp [StarshipV2.create_squadron_positions, Nat.min_eq_right (le_of_lt h)]
  · intro formation
    rfl

/-- Witness for C9 at a requested count above the clamp. -/
theorem c9_squadron_count_clamp_witness :
    (StarshipV2.create_squadron_positions 30 "line").length = 12 :=
  c9_squadron_count_clamp.2.1 30 "line" (by decide)

/-- C2: line formations place the item at index i at x = i * spacing with
y = 0 and z = 0, the spacing being 6 in the fleet patrol formation, 4 in
the squadron line formation and 2 in the mob-horde line formation; in
particular index 2 with spacing 4 gives x = 8. -/
theorem c2_line_formation_positions :
    (∀ count i (rand : ℕ → ℚ × ℚ × ℚ), i < count →
      (StarwarsFleet.create_fleet_positions count "patrol" rand)[i]? =
        some (.cart ((i : ℚ) * 6) 0 0))
    ∧ (∀ count i, i < min count 12 →
      (StarshipV2.create_squadron_positions count "line")[i]? =
        some (.cart ((i : ℚ) * 4) 0 0))
    ∧ (∀ count i (rand : ℕ → ℚ × ℚ), i < count →
      (MinecraftCharacters.create_mob_horde_positions count "line" rand)[i]? =
        some (.cart ((i : ℚ) * 2) 0 0))
    ∧ StarshipV2.squadron_position "line" 12 2 = .cart 8 0 0 := by
  refine ⟨?_, ?_, ?_, ?_⟩
  case refine_4 =>
    show Placement.cart (((2 : ℕ) : ℚ) * 4) 0 0 = Placement.cart 8 0 0
    norm_num
  · intro count i rand h
    have e : StarwarsFleet.fleet_position "patrol" count rand i =
        Placement.cart ((i : ℚ) * 6) 0 0 := rfl
    simp [StarwarsFleet.create_fleet_positions, List.getElem?_map, List.getElem?_range, h, e]
  · intro count i h
    have e : StarshipV2.squadron_position "line" (min count 12) i =
        Placement.cart ((i : ℚ) * 4) 0 0 := rfl
    simp [StarshipV2.create_squadron_positions, List.getElem?_map, List.getElem?_range, h, e]
  · intro count i rand h
    have e : MinecraftCharacters.horde_position "line" count rand i =
        Placement.cart ((i : ℚ) * 2) 0 0 := rfl
    simp [MinecraftCharacters.create_mob_horde_positions, List.getElem?_map,
          List.getElem?_range, h, e]

/-- Witness for C2: the third ship of a five-ship patrol, line squadron
and line horde. -/
theorem c2_line_formation_positions_witness :
    (StarwarsFleet.create_fleet_positions 5 "patrol" (fun _ => (0, 0, 0)))[2]? =
      some (.cart 12 0 0)
    ∧ (StarshipV2.create_squadron_positions 5 "line")[2]? = some (.cart 8 0 0)
    ∧ (MinecraftCharacters.create_mob_horde_positions 5 "line" (fun _ => (0, 0)))[2]? =
      some (.cart 4 0 0) := by
  obtain ⟨h1, h2, h3, _⟩ := c2_line_formation_positions
  refine ⟨?_, ?_, ?_⟩
  · have := h1 5 2 (fun _ => (0, 0, 0)) (by decide)
    norm_num at this
    exact this
  · have := h2 5 2 (by decide)
    norm_num at this
    exact this
  · have := h3 5 2 (fun _ => (0, 0)) (by decide)
    norm_num at this
    exact this

/-- C10: in the V formations (fleet attack, squadron v) the items at
index 0 and index 1 are both placed at the origin, because index 1 lies
in row 0 with a zero offset on both axes; so the first two ships of any
formation of at least two coincide. -/
theorem c10_v_formation_first_two_coincide :
    ∀ count, 2 ≤ count → ∀ rand : ℕ → ℚ × ℚ × ℚ,
      (StarwarsFleet.create_fleet_positions count "attack" rand)[0]? =
          some (.cart 0 0 0)
      ∧ (StarwarsFleet.create_fleet_positions count "attack" rand)[1]? =
          some (.cart 0 0 0)
      ∧ (StarshipV2.create_squadron_positions count "v")[0]? = some (.cart 0 0 0)
      ∧ (StarshipV2.create_squadron_positions count "v")[1]? = some (.cart 0 0 0) := by
  intro count h rand
  have h0 : 0 < count := by omega
  have h1 : 1 < count := by omega
  have hm0 : 0 < min count 12 := by omega
  have hm1 : 1 < min count 12 := by omega
  have e0 : StarwarsFleet.fleet_position "attack" count rand 0 = Placement.cart 0 0 0 := rfl
  have e1 : StarwarsFleet.fleet_position "attack" count rand 1 = Placement.cart 0 0 0 := by
    show Placement.cart (-((1 / 2 : ℕ) : ℚ) * 5) 0
        ((if 1 % 2 = 0 then (1 : ℚ) else -1) * ((1 / 2 : ℕ) : ℚ) * 4) = Placement.cart 0 0 0
    norm_num
  have f0 : StarshipV2.squadron_position "v" (min count 12) 0 = Placement.cart 0 0 0 := rfl
  have f1 : StarshipV2.squadron_position "v" (min count 12) 1 = Placement.cart 0 0 0 := by
    show Placement.cart ((if 1 % 2 = 0 then (1 : ℚ) else -1) * ((1 / 2 : ℕ) : ℚ) * 3) 0
        (-((1 / 2 : ℕ) : ℚ) * 4) = Placement.cart 0 0 0
    norm_num
  refine ⟨?_, ?_, ?_, ?_⟩
  · simp [StarwarsFleet.create_fleet_positions, List.getElem?_map, List.getElem?_range, h0, e0]
  · simp [StarwarsFleet.create_fleet_positions, List.getElem?_map, List.getElem?_range, h1, e1]
  · simp [StarshipV2.create_squadron_positions, List.getElem?_map, List.getElem?_range, hm0, f0]
  · simp [StarshipV2.create_squadron_positions, List.getElem?_map, List.getElem?_range, hm1, f1]

/-- Witness for C10 with a two-ship fleet and squadron. -/
theorem c10_v_formation_first_two_coincide_witness :
    (StarwarsFleet.create_fleet_positions 2 "attack" (fun _ => (0, 0, 0)))[0]? =
        some (.cart 0 0 0)
    ∧ (StarwarsFleet.create_fleet_positions 2 "attack" (fun _ => (0, 0, 0)))[1]? =
        some (.cart 0 0 0)
    ∧ (StarshipV2.create_squadron_positions 2 "v")[0]? = some (.cart 0 0 0)
    ∧ (StarshipV2.create_squadron_positions 2 "v")[1]? = some (.cart 0 0 0) :=
  c10_v_formation_first_two_coincide 2 (by decide) (fun _ => (0, 0, 0))

/-- C4: with per-letter colors disabled the chosen material color is the
first palette entry whatever the letter index; with them enabled letter
index i receives palette entry i mod palette length, so with the
seven-entry rainbow palette index 7 wraps back to entry 0. -/
theorem c4_letter_color_cycling :
    (∀ preset i j, Fancy3dText.letter_color preset false i =
        Fancy3dText.letter_color preset false j
      ∧ Fancy3dText.letter_color preset false i = (Fancy3dText.get_colors preset)[0]?)
    ∧ (∀ preset i, Fancy3dText.letter_color preset true i =
        (Fancy3dText.get_colors preset)[i % (Fancy3dText.get_colors preset).length]?)
    ∧ (Fancy3dText.get_colors "rainbow").length = 7
    ∧ Fancy3dText.letter_color "rainbow" true 7 = Fancy3dText.letter_color "rainbow" true 0
    ∧ Fancy3dText.letter_color "rainbow" true 7 = some ⟨1.0, 0.2, 0.2⟩ :=
  ⟨fun _ _ _ => ⟨rfl, rfl⟩, fun _ _ => rfl, rfl, rfl, rfl⟩

/-- C8: create_material is idempotent in its name argument: when a shader
named name_mat already exists the call returns name_SG at once, leaving
the scene unchanged and ignoring the color and emission arguments, so a
second call with the same name returns exactly what the first call
returned and creates no further nodes. -/
theorem c8_create_material_idempotent :
    (∀ (scene : MinecraftCharacters.Scene) name color emission,
      (name ++ "_mat") ∈ scene →
      MinecraftCharacters.create_material scene name color emission = (name ++ "_SG", scene))
    ∧ (∀ (scene : MinecraftCharacters.Scene) name c₁ e₁ c₂ e₂,
      MinecraftCharacters.create_material
          (MinecraftCharacters.create_material scene name c₁ e₁).2 name c₂ e₂ =
        MinecraftCharacters.create_material scene name c₁ e₁) := by
  constructor
  · intro scene name color emission h
    simp [MinecraftCharacters.create_material, h]
  · intro scene name c₁ e₁ c₂ e₂
    by_cases h : (name ++ "_mat") ∈ scene
    · simp [MinecraftCharacters.create_material, h]
    · simp [MinecraftCharacters.create_material, h]

/-- Witness for C8: a scene already holding the shader node. -/
theorem c8_create_material_idempotent_witness :
    MinecraftCharacters.create_material ["brick_mat"] "brick" ⟨1, 0, 0⟩ 0 =
      ("brick_SG", ["brick_mat"]) :=
  c8_create_material_idempotent.1 ["brick_mat"] "brick" ⟨1, 0, 0⟩ 0 (by simp)

theorem mem_of_lookupTable_eq_some {κ α : Type} [BEq κ] [LawfulBEq κ]
    {t : List (κ × α)} {k : κ} {v : α}
    (h : lookupTable t k = some v) : (k, v) ∈ t := by
  unfold lookupTable at h
  rw [Option.map_eq_some'] at h
  obtain ⟨p, hp, hv⟩ := h
  have hmem := List.mem_of_find?_eq_some hp
  have hpk := List.find?_some hp
  simp only at hpk
  have : p = (k, v) := by
    obtain ⟨a, b⟩ := p
    simp only at hv
    simp only [Prod.mk.injEq]
    exact ⟨eq_of_beq hpk, hv⟩
  rw [this] at hmem
  exact hmem

theorem toUpper_ne_space {c : Char} (hc : c ≠ ' ') : Char.toUpper c ≠ ' ' := by
  intro h
  apply hc
  unfold Char.toUpper at h
  simp only [ge_iff_le] at h
  by_cases hl : 97 ≤ c.toNat ∧ c.toNat ≤ 122
  · exfalso
    rw [if_pos hl] at h
    have hval : (c.toNat - 32).isValidChar := Or.inl (by omega)
    have hn : (Char.ofNat (c.toNat - 32)).toNat = c.toNat - 32 := by
      unfold Char.ofNat
      rw [dif_pos hval]
      rfl
    rw [h] at hn
    have h32 : (' ').toNat = 32 := rfl
    omega
  · rw [if_neg hl] at h
    exact h

theorem pattern_for_ne_nil {c : Char} (hc : c ≠ ' ') :
    Fancy3dTextV2.pattern_for c ≠ [] := by
  unfold Fancy3dTextV2.pattern_for
  cases hl : lookupTable Fancy3dTextV2.letter_patterns c with
  | none =>
    have hq : lookupTable Fancy3dTextV2.letter_patterns '?' = none := rfl
    simp [hq]
  | some pat =>
    simp only [Option.getD_some]
    have hmem := mem_of_lookupTable_eq_some hl
    have htab : ∀ p ∈ Fancy3dTextV2.letter_patterns, p.1 ≠ ' ' → p.2 ≠ [] := by
      intro p hp
      fin_cases hp <;> simp
    exact htab (c, pat) hmem hc

theorem primitive_text_loop_ne_nil (scale : ℚ) :
    ∀ (l : List Char) (x : ℚ), (∃ c ∈ l, c ≠ ' ') →
      Fancy3dTextV2.primitive_text_loop scale l x ≠ [] := by
  intro l
  induction l with
  | nil =>
    intro x h
    simp at h
  | cons c rest ih =>
    intro x h
    by_cases hc : c = ' '
    · subst hc
      obtain ⟨d, hd, hd'⟩ := h
      rcases List.mem_cons.mp hd with rfl | hdr
      · exact absurd rfl hd'
      · simpa [Fancy3dTextV2.primitive_text_loop] using ih (x + 2 * scale) ⟨d, hdr, hd'⟩
    · have hpe : (Fancy3dTextV2.pattern_for c).isEmpty = false := by
        have := pattern_for_ne_nil hc
        simpa [List.isEmpty_iff] using this
      simp [Fancy3dTextV2.primitive_text_loop, hc, hpe]

theorem letters_loop_eq_filter (host : ℕ → Fancy3dText.LetterResult) :
    ∀ l : List (ℕ × Char), Fancy3dText.letters_loop host l =
      l.filter (fun p => (p.2 != ' ') && Fancy3dText.letter_succeeds (host p.1)) := by
  intro l
  induction l with
  | nil => rfl
  | cons p rest ih =>
    obtain ⟨i, c⟩ := p
    by_cases hc : c = ' '
    · subst hc
      simp [Fancy3dText.letters_loop, ih, List.filter_cons]
    · cases hr : host i with
      | raised =>
        simp [Fancy3dText.letters_loop, hc, hr, ih, List.filter_cons,
              Fancy3dText.letter_succeeds]
      | curves extruded failed =>
        cases extruded with
        | zero =>
          simp [Fancy3dText.letters_loop, hc, hr, ih, List.filter_cons,
                Fancy3dText.letter_succeeds]
        | succ e =>
          simp [Fancy3dText.letters_loop, hc, hr, ih, List.filter_cons,
                Fancy3dText.letter_succeeds]

/-- Counterexample to C5 as stated: an unknown animation type given to the
text-animation helper does not fall back to the wave animation; it
produces no keyframes at all, differing from the keyframes the wave type
produces on the same single-mesh input. -/
theorem c5_unknown_animation_counterexample :
    Fancy3dTextV2.add_text_animation ["letter0"] "sparkle" = []
    ∧ Fancy3dTextV2.add_text_animation ["letter0"] "sparkle" ≠
        Fancy3dTextV2.add_text_animation ["letter0"] "wave" := by
  refine ⟨rfl, ?_⟩
  intro h
  have h3 : (Fancy3dTextV2.add_text_animation ["letter0"] "wave").length = 3 := rfl
  rw [← h] at h3
  have h0 : (Fancy3dTextV2.add_text_animation ["letter0"] "sparkle").length = 0 := rfl
  rw [h0] at h3
  exact absurd h3 (by decide)

/-- C5 amended: an unknown pose selector falls back to the same arm and
leg configuration as the documented default standing pose (arms down,
legs standing) without raising, while an unknown animation-type selector
raises no error either but sets no keyframes at all, rather than falling
back to the wave animation. -/
theorem c5_unknown_selector_fallbacks :
    (∀ meshes t, t ∉ ["wave", "bounce", "spin", "pop"] →
      Fancy3dTextV2.add_text_animation meshes t = [])
    ∧ (∀ pose, pose ∉ ["wave", "zombie", "walking", "standing"] →
      MinecraftCharacters.arm_pose pose = MinecraftCharacters.arm_pose "standing"
      ∧ MinecraftCharacters.leg_pose pose = MinecraftCharacters.leg_pose "standing"
      ∧ MinecraftCharacters.arm_pose pose = "down"
      ∧ MinecraftCharacters.leg_pose pose = "standing") := by
  constructor
  · intro meshes t h
    simp only [List.mem_cons, List.not_mem_nil, or_false, not_or] at h
    obtain ⟨h1, h2, h3, h4⟩ := h
    unfold Fancy3dTextV2.add_text_animation
    have hm : ∀ p : ℕ × String, Fancy3dTextV2.mesh_keyframes t p.2 p.1 = [] := by
      intro p
      unfold Fancy3dTextV2.mesh_keyframes
      rw [if_neg h1, if_neg h2, if_neg h3, if_neg h4]
    simp [hm]
  · intro pose h
    simp only [List.mem_cons, List.not_mem_nil, or_false, not_or] at h
    obtain ⟨hw, hz, hk, hs⟩ := h
    have harm : pose ∉ ["wave", "zombie"] := by simp [hw, hz]
    have e1 : MinecraftCharacters.arm_pose pose = "down" := by
      unfold MinecraftCharacters.arm_pose
      rw [if_neg harm]
    have e2 : MinecraftCharacters.leg_pose pose = "standing" := by
      unfold MinecraftCharacters.leg_pose
      rw [if_neg hk]
    exact ⟨e1.trans (by rfl), e2.trans (by rfl), e1, e2⟩

/-- Witness for the amended C5 at concrete unknown selectors. -/
theorem c5_unknown_selector_fallbacks_witness :
    Fancy3dTextV2.add_text_animation ["letter0"] "wobble" = []
    ∧ MinecraftCharacters.arm_pose "tpose" = "down"
    ∧ MinecraftCharacters.leg_pose "tpose" = "standing" := by
  obtain ⟨h1, h2⟩ := c5_unknown_selector_fallbacks
  exact ⟨h1 ["letter0"] "wobble" (by decide),
         (h2 "tpose" (by decide)).2.2.1, (h2 "tpose" (by decide)).2.2.2⟩

/-- C7: in create_3d_text of fancy_3d_text.py an exception from the
per-letter curve creation is caught for that letter alone: the loop keeps
exactly the non-space letters whose host interaction succeeded, so a
letter whose curve creation raised is skipped while every other letter
still produces its mesh, as the concrete two-letter run with a failing
first letter shows. -/
theorem c7_per_letter_failure_isolation :
    (∀ text host, Fancy3dText.create_3d_text_letters text host =
      text.enum.filter (fun p => (p.2 != ' ') && Fancy3dText.letter_succeeds (host p.1)))
    ∧ Fancy3dText.create_3d_text_letters ['A', 'B']
        (fun i => if i = 0 then .raised else .curves 1 0) = [(1, 'B')] := by
  refine ⟨fun text host => letters_loop_eq_filter host text.enum, rfl⟩

/-- C6: when the Type-tool path of fancy_3d_text_v2.create_3d_text
produces no meshes, the primitive fallback is what gets used, and on any
text with at least one non-space character the fallback produces at least
one blocky letter, so the overall call returns a group rather than the
None failure value. -/
theorem c6_primitive_fallback_total :
    ∀ (text : List Char) (scale : ℚ), (∃ c ∈ text, c ≠ ' ') →
      Fancy3dTextV2.create_primitive_text text scale ≠ []
      ∧ (Fancy3dTextV2.create_3d_text [] text scale).1 ≠ none
      ∧ (Fancy3dTextV2.create_3d_text [] text scale).2 =
          (Fancy3dTextV2.create_primitive_text text scale).map
            Fancy3dTextV2.TextMesh.primitive := by
  intro text scale h
  obtain ⟨c, hcm, hc⟩ := h
  have h1 : Fancy3dTextV2.create_primitive_text text scale ≠ [] := by
    apply primitive_text_loop_ne_nil
    exact ⟨Char.toUpper c, List.mem_map.mpr ⟨c, hcm, rfl⟩, toUpper_ne_space hc⟩
  have hne : ((Fancy3dTextV2.create_primitive_text text scale).map
      Fancy3dTextV2.TextMesh.primitive).isEmpty = false := by
    simp [List.isEmpty_iff, h1]
  refine ⟨h1, ?_, ?_⟩
  · simp [Fancy3dTextV2.create_3d_text, hne]
  · simp [Fancy3dTextV2.create_3d_text, hne]

/-- Counterexample to C3 as stated: the escort (diamond) formation of
create_fleet does not place item i at angle 360 * i / count on the
radius-8 circle; item 0 of a four-ship escort is placed at the origin,
while the stated formula puts it at angle 0, the point (8, 0, 0). -/
theorem c3_escort_circle_counterexample :
    (StarwarsFleet.fleet_position "escort" 4 (fun _ => (0, 0, 0)) 0).toPoint ≠
      spec_circle_point 8 4 0 := by
  have h0 : StarwarsFleet.fleet_position "escort" 4 (fun _ => (0, 0, 0)) 0 =
      Placement.cart 0 0 0 := rfl
  have hs : spec_circle_point 8 4 0 = (8, 0, 0) := by
    unfold spec_circle_point
    norm_num
  rw [h0, hs]
  unfold Placement.toPoint
  intro h
  rw [Prod.ext_iff] at h
  norm_num at h

/-- C3 amended: the diamond formation of create_squadron does place item
i at angle 360 * i / count on the radius-5 circle (for counts within the
squadron clamp), with item 1 of 4 at 90 degrees, approximately (0, 5) in
the xz plane; the escort formation of create_fleet instead places item 0
at the origin and item i of the remaining ships at angle
360 * (i - 1) / (count - 1) on the radius-8 circle, that is, where the
stated formula would put item i - 1 of count - 1. -/
theorem c3_circle_formation_amended :
    (∀ count i, i < count → count ≤ 12 →
      (StarshipV2.create_squadron_positions count "diamond")[i]? =
          some (Placement.ring 5 (((i : ℚ) / (count : ℚ)) * 360))
      ∧ (Placement.ring 5 (((i : ℚ) / (count : ℚ)) * 360)).toPoint =
          spec_circle_point 5 count i)
    ∧ (∀ count i (rand : ℕ → ℚ × ℚ × ℚ), 1 ≤ i → i < count →
      (StarwarsFleet.create_fleet_positions count "escort" rand)[i]? =
          some (Placement.ring 8 (((i - 1 : ℕ) : ℚ) / ((count - 1 : ℕ) : ℚ) * 360))
      ∧ (StarwarsFleet.create_fleet_positions count "escort" rand)[0]? =
          some (Placement.cart 0 0 0)
      ∧ (Placement.ring 8 (((i - 1 : ℕ) : ℚ) / ((count - 1 : ℕ) : ℚ) * 360)).toPoint =
          spec_circle_point 8 (count - 1) (i - 1))
    ∧ (StarshipV2.squadron_position "diamond" 4 1).toPoint = (0, 0, 5) := by
  refine ⟨?_, ?_, ?_⟩
  · intro count i h1 h2
    have hmin : min count 12 = count := Nat.min_eq_left h2
    constructor
    · have e : StarshipV2.squadron_position "diamond" count i =
          Placement.ring 5 (((i : ℚ) / (count : ℚ)) * 360) := rfl
      simp [StarshipV2.create_squadron_positions, List.getElem?_map, List.getElem?_range,
            hmin, h1, e]
    · have hθ : ((((i : ℚ) / (count : ℚ)) * 360 : ℚ) : ℝ) * Real.pi / 180 =
          360 * (i : ℝ) / (count : ℝ) * Real.pi / 180 := by
        push_cast
        ring
      simp only [Placement.toPoint, spec_circle_point]
      rw [hθ]
      norm_num
  · intro count i rand h1 h2
    have hne0 : ¬ i = 0 := by omega
    have hcount : 1 < count := by omega
    have h0c : 0 < count := by omega
    have e : StarwarsFleet.fleet_position "escort" count rand i =
        Placement.ring 8 (((i - 1 : ℕ) : ℚ) / ((count - 1 : ℕ) : ℚ) * 360) := by
      show (if i = 0 then Placement.cart 0 0 0
            else Placement.ring 8
              (if 1 < count then (((i - 1 : ℕ) : ℚ) / ((count - 1 : ℕ) : ℚ)) * 360 else 0)) =
          Placement.ring 8 (((i - 1 : ℕ) : ℚ) / ((count - 1 : ℕ) : ℚ) * 360)
      rw [if_neg hne0, if_pos hcount]
    have e0 : StarwarsFleet.fleet_position "escort" count rand 0 =
        Placement.cart 0 0 0 := rfl
    refine ⟨?_, ?_, ?_⟩
    · simp [StarwarsFleet.create_fleet_positions, List.getElem?_map, List.getElem?_range,
            h2, e]
    · simp [StarwarsFleet.create_fleet_positions, List.getElem?_map, List.getElem?_range,
            h0c, e0]
    · have hθ : ((((i - 1 : ℕ) : ℚ) / ((count - 1 : ℕ) : ℚ) * 360 : ℚ) : ℝ) * Real.pi / 180 =
          360 * ((i - 1 : ℕ) : ℝ) / ((count - 1 : ℕ) : ℝ) * Real.pi / 180 := by
        push_cast
        ring
      simp only [Placement.toPoint, spec_circle_point]
      rw [hθ]
      norm_num
  · have e : StarshipV2.squadron_position "diamond" 4 1 = Placement.ring 5 90 := by
      show Placement.ring 5 (((1 : ℕ) : ℚ) / ((4 : ℕ) : ℚ) * 360) = Placement.ring 5 90
      norm_num
    rw [e]
    simp only [Placement.toPoint]
    have hθ : ((90 : ℚ) : ℝ) * Real.pi / 180 = Real.pi / 2 := by
      push_cast
      ring
    rw [hθ, Real.cos_pi_div_two, Real.sin_pi_div_two]
    norm_num

/-- Witness for the amended C3: the second ship of a four-ship diamond
squadron and of a four-ship escort fleet. -/
theorem c3_circle_formation_amended_witness :
    ((StarshipV2.create_squadron_positions 4 "diamond")[1]? =
        some (Placement.ring 5 (((1 : ℕ) : ℚ) / ((4 : ℕ) : ℚ) * 360))
      ∧ (Placement.ring 5 (((1 : ℕ) : ℚ) / ((4 : ℕ) : ℚ) * 360)).toPoint =
          spec_circle_point 5 4 1)
    ∧ ((StarwarsFleet.create_fleet_positions 4 "escort" (fun _ => (0, 0, 0)))[1]? =
        some (Placement.ring 8 (((1 - 1 : ℕ) : ℚ) / ((4 - 1 : ℕ) : ℚ) * 360))
      ∧ (StarwarsFleet.create_fleet_positions 4 "escort" (fun _ => (0, 0, 0)))[0]? =
          some (Placement.cart 0 0 0)
      ∧ (Placement.ring 8 (((1 - 1 : ℕ) : ℚ) / ((4 - 1 : ℕ) : ℚ) * 360)).toPoint =
          spec_circle_point 8 (4 - 1) (1 - 1)) := by
  obtain ⟨ha, hb, _⟩ := c3_circle_formation_amended
  exact ⟨ha 4 1 (by decide) (by decide), hb 4 1 (fun _ => (0, 0, 0)) (by decide) (by decide)⟩

/-- Witness for C6 on the text HI. -/
theorem c6_primitive_fallback_total_witness :
    Fancy3dTextV2.create_primitive_text ['H', 'I'] 1 ≠ []
    ∧ (Fancy3dTextV2.create_3d_text [] ['H', 'I'] 1).1 ≠ none
    ∧ (Fancy3dTextV2.create_3d_text [] ['H', 'I'] 1).2 =
        (Fancy3dTextV2.create_primitive_text ['H', 'I'] 1).map
          Fancy3dTextV2.TextMesh.primitive :=
  c6_primitive_fallback_total ['H', 'I'] 1 ⟨'H', by decide, by decide⟩

end Theorems
